import Mathlib

/-!
Verification of the asynchronous logging subsystem of the TELERAG project
(`source/Logging.py`).  The Python code is shallowly embedded: each method is
translated to a pure Lean function on an explicit state record; the asyncio
queues become lists (front of the list = next `get`); the `asyncio.Queue`
unfinished-task counter (incremented by `put`, decremented only by
`task_done`) is an explicit `Nat` field.  Wall-clock timestamps are passed in
as explicit parameters.
-/

/-- Log levels, mirroring `class LogLevel(enum.Enum)` in `Logging.py`
(SIGSTOP = -1, DEBUG = 0, ..., QUIET = 6, NOTSET = 7). -/
inductive LogLevel where
  | SIGSTOP
  | DEBUG
  | INFO
  | WARNING
  | ERROR
  | FATAL
  | EXCEPTION
  | QUIET
  | NOTSET
deriving DecidableEq

/-- The numeric value of each enum member, as declared in the Python enum. -/
def LogLevel.value : LogLevel → Int
  | .SIGSTOP => -1
  | .DEBUG => 0
  | .INFO => 1
  | .WARNING => 2
  | .ERROR => 3
  | .FATAL => 4
  | .EXCEPTION => 5
  | .QUIET => 6
  | .NOTSET => 7

/-- `loglevel_dict.get(s, LogLevel.NOTSET)`: name-to-level lookup with the
NOTSET default used by `LoggerComposer.__init__`. -/
def loglevel_dict (s : String) : LogLevel :=
  if s = "DEBUG" then .DEBUG
  else if s = "INFO" then .INFO
  else if s = "WARNING" then .WARNING
  else if s = "ERROR" then .ERROR
  else if s = "FATAL" then .FATAL
  else if s = "EXCEPTION" then .EXCEPTION
  else if s = "QUIET" then .QUIET
  else if s = "NOTSET" then .NOTSET
  else .NOTSET

/-- `reversed_loglevel_dict.get(v, "UNKNOWN")`: value-to-name lookup used by
`Logger._apply_decorations`. -/
def reversed_loglevel_dict (v : Int) : String :=
  if v = 0 then "DEBUG"
  else if v = 1 then "INFO"
  else if v = 2 then "WARNING"
  else if v = 3 then "ERROR"
  else if v = 4 then "FATAL"
  else if v = 5 then "EXCEPTION"
  else if v = 6 then "QUIET"
  else if v = 7 then "NOTSET"
  else "UNKNOWN"

/-- An item of `Logger._message_queue`: `None` (the STOP sentinel put by
`log` on SIGSTOP) or a `(loglevel, message)` pair. -/
abbrev QItem := Option (LogLevel × String)

/-- State of one `Logger` object (`Logger.__init__`, lines 269-281).
`unfinished` is the `asyncio.Queue` unfinished-task counter of
`_message_queue`; `taskStarted` models `_queue_processing_task is not None`.
The unused `_buffer` field is omitted. -/
structure LoggerState where
  name : String
  level : LogLevel
  queue : List QItem
  unfinished : Nat
  logging : Bool
  taskStarted : Bool
  file_location : String
deriving DecidableEq

/-- `Logger.__init__(name="default", file="log.txt")`: level starts at
NOTSET, empty queue, `_logging = True`, no consumer task. -/
def LoggerState.init (name file : String) : LoggerState :=
  ⟨name, LogLevel.NOTSET, [], 0, true, false, file⟩

/-- `Logger.set_level` (lines 283-289): assigns only while the current level
is still the NOTSET sentinel; otherwise a silent no-op. -/
def Logger.set_level (st : LoggerState) (level : LogLevel) : LoggerState :=
  if st.level ≠ LogLevel.NOTSET then st else { st with level := level }

/-- `Logger._create` (lines 291-298): starts the consumer task unless one
exists already or logging is off. -/
def Logger.create_task (st : LoggerState) : LoggerState :=
  if st.taskStarted ∨ st.logging = false then st else { st with taskStarted := true }

/-- The tail of `Logger.log` (lines 314-315): start the consumer lazily when
`self._queue_processing_task is None`. -/
def Logger.maybe_create (st : LoggerState) : LoggerState :=
  if st.taskStarted = false then Logger.create_task st else st

/-- `Logger.log` (lines 300-315).  Order of checks as in the source: QUIET
threshold returns first (even for SIGSTOP); SIGSTOP puts the `None` sentinel
and returns; otherwise the message is put iff
`loglevel.value >= self._level.value`, and then the consumer task is started
lazily.  Every `put` bumps the queue's unfinished-task counter. -/
def Logger.log (st : LoggerState) (loglevel : LogLevel) (message : String) : LoggerState :=
  if st.level = LogLevel.QUIET then st
  else if loglevel = LogLevel.SIGSTOP then
    { st with queue := st.queue ++ [none], unfinished := st.unfinished + 1 }
  else if loglevel.value ≥ st.level.value then
    Logger.maybe_create
      { st with queue := st.queue ++ [some (loglevel, message)], unfinished := st.unfinished + 1 }
  else Logger.maybe_create st

/-- `Logger._apply_decorations` (lines 335-341); the wall-clock timestamp
string is passed explicitly. -/
def Logger.apply_decorations (timestamp name : String) (level : LogLevel) (message : String) : String :=
  "[" ++ timestamp ++ " - " ++ name ++ "/" ++ reversed_loglevel_dict level.value ++ "] -> " ++ message

/-- The forwarding behaviour of `Logger._process_queue` (lines 343-359) over
the items currently in the logger's queue: a `None` item is forwarded to the
file gateway unformatted and the loop breaks; any other item is decorated and
forwarded.  The console echo (`aprint`) is a side effect with no state and is
not modelled; the gateway is the one attached by the registry.  Note the
source never calls `task_done()` on the queue. -/
def processQueue (timestamp name : String) : List QItem → List (Option String) → List (Option String)
  | [], gw => gw
  | none :: _, gw => gw ++ [none]
  | some (lvl, msg) :: rest, gw =>
      processQueue timestamp name rest (gw ++ [some (Logger.apply_decorations timestamp name lvl msg)])

/-- The write loop of `FileGateway._stream_process` (lines 487-497) over the
items in the gateway's queue: a `None` item is the gateway's drain signal and
stops the loop; other items are written as lines.  The banner, flushes and
the rotation check (verified separately via `rotate_if_needed`) do not affect
which lines are consumed before the drain signal. -/
def streamProcess : List (Option String) → List String → List String
  | [], acc => acc
  | none :: _, acc => acc
  | some m :: rest, acc => streamProcess rest (acc ++ [m])

/-- First phase of `Logger.stop` (line 362): `self._logging = False`. -/
def Logger.stop_phase1 (st : LoggerState) : LoggerState := { st with logging := false }

/-- `Logger.stop` (lines 361-370): clears `_logging`, then
`await self._message_queue.join()`, then cancels the consumer task.
`Queue.join()` returns exactly when the unfinished-task counter is zero; the
counter goes up on every `put` and down only on `task_done()`, which
`_process_queue` never calls.  `none` models a `join()` that can never
return (the coroutine blocks forever). -/
def Logger.stop (st : LoggerState) : Option LoggerState :=
  if (Logger.stop_phase1 st).unfinished = 0 then
    some { Logger.stop_phase1 st with taskStarted := false }
  else none

/-- Events that can touch a single logger's queue while it is running: a
producer calls `Logger.log`, or the consumer (`_process_queue`) dequeues one
item. -/
inductive LoggerOp where
  | emit (loglevel : LogLevel) (message : String)
  | consume
deriving DecidableEq

/-- One interleaving step on a logger.  `consume` is `_process_queue` taking
one item off the queue with `get()`; it never calls `task_done`, so the
unfinished-task counter is untouched. -/
def loggerStep (st : LoggerState) (op : LoggerOp) : LoggerState :=
  match op with
  | .emit lvl msg => Logger.log st lvl msg
  | .consume =>
    match st.queue with
    | [] => st
    | _ :: rest => { st with queue := rest }

/-- Run a sequence of interleaving steps on a logger. -/
def runLogger (st : LoggerState) (ops : List LoggerOp) : LoggerState :=
  ops.foldl loggerStep st

/-- `class RotType(enum.Enum)`: rotation policies. -/
inductive RotType where
  | NONE
  | TIME
  | SIZE
  | TIME_SIZE
deriving DecidableEq

/-- Shape of `FileGateway._rot_amt`: `None` initially, one number after a
SIZE or TIME configuration, a pair after TIME_SIZE. -/
inductive RotAmt where
  | unset
  | single (n : Int)
  | pair (t s : Int)
deriving DecidableEq

/-- The rotation-relevant state of a `FileGateway` (`__init__`, lines
376-384): destination path, segment-start timestamp, rotation type and
threshold.  The message stream and task handle are modelled separately
(`streamProcess`); `_logging` starts true. -/
structure FileGateway where
  file_loc : String
  start_stamp : Int
  rot_type : RotType
  rot_amt : RotAmt
deriving DecidableEq

/-- A freshly constructed `FileGateway(file_loc)` at wall-clock time `now`:
rotation NONE with no threshold. -/
def FileGateway.init (file_loc : String) (now : Int) : FileGateway :=
  ⟨file_loc, now, RotType.NONE, RotAmt.unset⟩

/-- `size_type_dict.get(s, 1)`: unit-name to byte coefficient. -/
def size_type_coeff (s : String) : Int :=
  if s = "b" ∨ s = "bytes" ∨ s = "byte" then 1
  else if s = "kb" ∨ s = "kilobytes" ∨ s = "kilobyte" then 1024
  else if s = "mb" ∨ s = "megabytes" ∨ s = "megabyte" then 1024 * 1024
  else if s = "gb" ∨ s = "gigabytes" ∨ s = "gigabyte" then 1024 * 1024 * 1024
  else 1

/-- `time_type_dict.get(s, 1)`: unit-name to seconds coefficient. -/
def time_type_coeff (s : String) : Int :=
  if s = "s" ∨ s = "seconds" ∨ s = "second" then 1
  else if s = "m" ∨ s = "minutes" ∨ s = "minute" then 60
  else if s = "h" ∨ s = "hours" ∨ s = "hour" then 60 * 60
  else if s = "d" ∨ s = "days" ∨ s = "day" then 60 * 60 * 24
  else 1

/-- Split a character list at every occurrence of `sep` (the behaviour of
Python `str.split(sep)`; `str.split()` on the single-space-separated inputs
of the rotation grammar coincides with splitting at a space). -/
def splitChars (sep : Char) : List Char → List (List Char)
  | [] => [[]]
  | c :: rest =>
    match splitChars sep rest with
    | [] => if c = sep then [[], []] else [[c]]
    | g :: gs => if c = sep then [] :: g :: gs else (c :: g) :: gs

/-- String version of `splitChars`. -/
def splitStr (sep : Char) (s : String) : List String :=
  (splitChars sep s.toList).map String.mk

/-- Accumulate decimal digits; any non-digit character fails the parse. -/
def parseNatAux : List Char → Nat → Option Nat
  | [], acc => some acc
  | c :: rest, acc =>
      if c.isDigit then parseNatAux rest (10 * acc + (c.toNat - 48)) else none

/-- Python `int(s)` on a plain decimal string (optionally signed); `none`
models the raised `ValueError`. -/
def parseInt (s : String) : Option Int :=
  match s.toList with
  | [] => none
  | '-' :: rest =>
      if rest.isEmpty then none else (parseNatAux rest 0).map (fun n => -(n : Int))
  | cs => (parseNatAux cs 0).map (fun n => (n : Int))

/-- Python `str.lower()` (ASCII case fold suffices for the unit tables). -/
def strToLower (s : String) : String := String.mk (s.toList.map Char.toLower)

/-- `FileGateway.convert_str_to_size` (lines 442-451): split the compound
string into amount and unit, parse the amount, multiply by the unit
coefficient.  `none` models the `ValueError` raised by a failed unpack or
`int()` parse. -/
def convert_str_to_size (amt : String) : Option Int :=
  match splitStr ' ' amt with
  | [a, u] => (parseInt a).map (fun n => n * size_type_coeff (strToLower u))
  | _ => none

/-- `FileGateway.convert_str_to_timestamp` (lines 453-461). -/
def convert_str_to_timestamp (amt : String) : Option Int :=
  match splitStr ' ' amt with
  | [a, u] => (parseInt a).map (fun n => n * time_type_coeff (strToLower u))
  | _ => none

/-- `FileGateway.set_file_rotation` (lines 397-409): sticky first write (a
gateway whose rotation type is already not NONE is unchanged); otherwise the
rotation type is recorded and the threshold parsed per policy (TIME_SIZE
splits its argument on a vertical bar into a time part and a size part).
`none` models the exceptions raised by failed parsing. -/
def FileGateway.set_file_rotation (g : FileGateway) (rot_type : RotType) (amt : String) :
    Option FileGateway :=
  if g.rot_type ≠ RotType.NONE then some g
  else
    match rot_type with
    | RotType.SIZE =>
        (convert_str_to_size amt).map
          (fun a => { g with rot_type := RotType.SIZE, rot_amt := RotAmt.single a })
    | RotType.TIME =>
        (convert_str_to_timestamp amt).map
          (fun a => { g with rot_type := RotType.TIME, rot_amt := RotAmt.single a })
    | RotType.TIME_SIZE =>
        match splitStr '|' amt with
        | [time_str, size_str] =>
          match convert_str_to_timestamp time_str, convert_str_to_size size_str with
          | some ta, some sa =>
              some { g with rot_type := RotType.TIME_SIZE, rot_amt := RotAmt.pair ta sa }
          | _, _ => none
        | _ => none
    | RotType.NONE => some { g with rot_type := RotType.NONE }

/-- `FileGateway.rotate_if_needed(time_amt, size_amt)` (lines 411-425).
NONE never rotates; SIZE rotates when a size is supplied and is at least the
byte threshold; TIME when a time is supplied and the elapsed seconds since
the segment start strictly exceed the threshold; TIME_SIZE when both are
supplied and either condition holds.  (The wildcard rows correspond to
threshold shapes that `set_file_rotation` never pairs with that rotation
type, where the Python comparison would raise.) -/
def FileGateway.rotate_if_needed (g : FileGateway) (time_amt size_amt : Option Int) : Bool :=
  if g.rot_type = RotType.NONE then false
  else if g.rot_type = RotType.SIZE then
    match size_amt, g.rot_amt with
    | some sz, RotAmt.single a => decide (sz ≥ a)
    | _, _ => false
  else if g.rot_type = RotType.TIME then
    match time_amt, g.rot_amt with
    | some t, RotAmt.single a => decide (t - g.start_stamp > a)
    | _, _ => false
  else
    match time_amt, size_amt, g.rot_amt with
    | some t, some sz, RotAmt.pair ta sa => decide (t - g.start_stamp > ta ∨ sz ≥ sa)
    | _, _, _ => false

/-- The argument vector of a `Logger(...)` construction call as seen by
`ComposerMeta.__call__(cls, *args, **kwargs)`: at most two positional
arguments (bound to `name` and `file` of `Logger.__init__`) and the `name` /
`file` keyword arguments. -/
structure CallArgs where
  posName : Option String
  posFile : Option String
  kwName : Option String
  kwFile : Option String
deriving DecidableEq

/-- `kwargs.get("name", "default")` — the registry key reads keyword
arguments only (line 239). -/
def registryName (args : CallArgs) : String := args.kwName.getD "default"

/-- `"./logs/" + kwargs.get("file", "log.txt")` (lines 240-242). -/
def registryFile (args : CallArgs) : String := "./logs/" ++ args.kwFile.getD "log.txt"

/-- The `name` parameter that Python binds inside `Logger.__init__` for the
same call: first positional argument, else the keyword, else the default. -/
def instanceName (args : CallArgs) : String :=
  (args.posName.orElse (fun _ => args.kwName)).getD "default"

/-- The `file` parameter bound inside `Logger.__init__`. -/
def instanceFile (args : CallArgs) : String :=
  (args.posFile.orElse (fun _ => args.kwFile)).getD "log.txt"

/-- One row of `LoggerComposer._loggers`: the dict maps a registry name to
the `(logger, file_location, gateway)` triple.  Logger and gateway objects
are identified by allocation ids so that sharing is observable. -/
structure Entry where
  name : String
  logger : LoggerState
  loggerId : Nat
  file_location : String
  gatewayId : Nat
deriving DecidableEq

/-- State of the singleton `LoggerComposer` plus the allocation counters for
logger/gateway object identities.  `entries` keeps dict insertion order. -/
structure ComposerState where
  level : LogLevel
  entries : List Entry
  nextLoggerId : Nat
  nextGatewayId : Nat
deriving DecidableEq

/-- `LoggerComposer.__init__(loglevel)` (lines 141-143). -/
def LoggerComposer.mk_composer (loglevel : String) : ComposerState :=
  ⟨loglevel_dict loglevel, [], 0, 0⟩

/-- The composer that `ComposerMeta._get_composer` auto-creates on first
logger construction (lines 211-222): `LoggerComposer(loglevel="DEBUG")`. -/
def ComposerMeta.autoComposer : ComposerState := LoggerComposer.mk_composer "DEBUG"

/-- `LoggerComposer.get_gateway_if_exists(file)` (lines 180-187): the
gateway of the first registered triple whose file location equals `file`. -/
def get_gateway_if_exists (st : ComposerState) (file : String) : Option Nat :=
  (st.entries.find? (fun e => decide (e.file_location = file))).map Entry.gatewayId

/-- Gateway resolution inside `ComposerMeta.__call__` (lines 247-249): reuse
the gateway registered for the path if any, otherwise allocate a fresh one.
Returns the chosen gateway id and the updated allocation counter. -/
def resolveGateway (st : ComposerState) (file : String) : Nat × Nat :=
  match get_gateway_if_exists st file with
  | some g => (g, st.nextGatewayId)
  | none => (st.nextGatewayId, st.nextGatewayId + 1)

/-- The triple stored by `add_logger` for a fresh registration: registry
name, the freshly constructed `Logger` (whose level `add_logger` overwrites
with the composer's level, line 162), the prefixed file location, and the
resolved gateway. -/
def newEntry (st : ComposerState) (args : CallArgs) : Entry :=
  ⟨registryName args,
   { LoggerState.init (instanceName args) (instanceFile args) with level := st.level },
   st.nextLoggerId, registryFile args, (resolveGateway st (registryFile args)).1⟩

/-- `ComposerMeta.__call__` (lines 232-257) followed by
`LoggerComposer.add_logger` (lines 156-164): get-or-create of a logger.
Returns the id of the logger handed back to the caller together with the new
composer state.  If the registry name is taken the existing logger is
returned and the state is untouched; otherwise a gateway is reused by path
or freshly allocated and the new triple is appended (dict insertion). -/
def createLogger (st : ComposerState) (args : CallArgs) : Nat × ComposerState :=
  match st.entries.find? (fun e => decide (e.name = registryName args)) with
  | some e => (e.loggerId, st)
  | none =>
    (st.nextLoggerId,
     { st with
        entries := st.entries ++ [newEntry st args],
        nextLoggerId := st.nextLoggerId + 1,
        nextGatewayId := (resolveGateway st (registryFile args)).2 })

/-- `Logger.set_level` applied to the registered logger of name `n` (the
registry stores the object, so the mutation is visible in the registry). -/
def setLevelEntry (n : String) (lvl : LogLevel) (e : Entry) : Entry :=
  if e.name = n then { e with logger := Logger.set_level e.logger lvl } else e

/-- One step of `LoggerComposer.set_level_if_not_set` (lines 198-203) on a
single registered logger. -/
def setLevelIfNotSetEntry (lvl : LogLevel) (e : Entry) : Entry :=
  { e with logger := Logger.set_level e.logger lvl }

/-- A stop invocation recorded by `stop_everything`: `logger[0].stop()` or
`logger[2].stop()`. -/
inductive StopCall where
  | logger_stop (id : Nat)
  | gateway_stop (id : Nat)
deriving DecidableEq

/-- The sequence of stop invocations `LoggerComposer.stop_everything` (lines
189-196) issues: for each registered triple in dict order, the logger's
`stop()` then that triple's gateway's `stop()`.  (The source calls these
coroutines without awaiting them.) -/
def stop_everything_calls (st : ComposerState) : List StopCall :=
  st.entries.flatMap (fun e => [StopCall.logger_stop e.loggerId, StopCall.gateway_stop e.gatewayId])

/-- The state effect of `LoggerComposer.stop_everything`: `self._loggers = {}`. -/
def stop_everything (st : ComposerState) : ComposerState := { st with entries := [] }

/-- The mutating operations available on the registry after creation:
logger construction (`ComposerMeta.__call__`), `remove_logger`, a direct
`set_level` call on a registered logger, `set_level_if_not_set`, and
`stop_everything`. -/
inductive ComposerOp where
  | create (args : CallArgs)
  | remove (name : String)
  | setLevel (name : String) (lvl : LogLevel)
  | setLevelIfNotSet
  | stopAll
deriving DecidableEq

/-- One registry step. `remove` models `remove_logger` (deleting the key; on
a missing key the source raises and the state is likewise unchanged). -/
def composerStep (st : ComposerState) (op : ComposerOp) : ComposerState :=
  match op with
  | .create args => (createLogger st args).2
  | .remove n => { st with entries := st.entries.filter (fun e => decide (e.name ≠ n)) }
  | .setLevel n lvl => { st with entries := st.entries.map (setLevelEntry n lvl) }
  | .setLevelIfNotSet => { st with entries := st.entries.map (setLevelIfNotSetEntry st.level) }
  | .stopAll => stop_everything st

/-- Run a sequence of registry operations. -/
def runComposer (st : ComposerState) (ops : List ComposerOp) : ComposerState :=
  ops.foldl composerStep st

/-! ### Helper lemmas -/

theorem create_task_unfinished (st : LoggerState) :
    (Logger.create_task st).unfinished = st.unfinished := by
  unfold Logger.create_task; split <;> rfl

theorem maybe_create_unfinished (st : LoggerState) :
    (Logger.maybe_create st).unfinished = st.unfinished := by
  unfold Logger.maybe_create; split <;> simp [create_task_unfinished]

theorem create_task_queue (st : LoggerState) :
    (Logger.create_task st).queue = st.queue := by
  unfold Logger.create_task; split <;> rfl

theorem maybe_create_queue (st : LoggerState) :
    (Logger.maybe_create st).queue = st.queue := by
  unfold Logger.maybe_create; split <;> simp [create_task_queue]

theorem log_unfinished_le (st : LoggerState) (lvl : LogLevel) (msg : String) :
    st.unfinished ≤ (Logger.log st lvl msg).unfinished := by
  unfold Logger.log
  split
  · exact Nat.le_refl _
  · split
    · exact Nat.le_succ _
    · split
      · rw [maybe_create_unfinished]; exact Nat.le_succ _
      · rw [maybe_create_unfinished]

theorem loggerStep_unfinished_le (st : LoggerState) (op : LoggerOp) :
    st.unfinished ≤ (loggerStep st op).unfinished := by
  cases op with
  | emit lvl msg => exact log_unfinished_le st lvl msg
  | consume =>
    unfold loggerStep
    cases st.queue <;> exact Nat.le_refl _

theorem runLogger_unfinished_le (st : LoggerState) (ops : List LoggerOp) :
    st.unfinished ≤ (runLogger st ops).unfinished := by
  induction ops generalizing st with
  | nil => exact Nat.le_refl _
  | cons op rest ih =>
    exact Nat.le_trans (loggerStep_unfinished_le st op) (ih (loggerStep st op))

/-- A logger as it exists right after registration: the composer that
auto-creates itself on first construction overwrites the level with DEBUG
(`add_logger`, line 162). -/
def registeredDefaultLogger : LoggerState :=
  { LoggerState.init "default" "log.txt" with level := LogLevel.DEBUG }

/-! ### Claims -/

/-- Claim C1.  The claim is false of the code: `Logger.stop` does clear the
running flag, but it never enqueues the STOP sentinel (its only queue-side
effect is `join()`), and since `_process_queue` never calls `task_done()`,
the unfinished-task counter of the message queue can never return to zero
once a message has been enqueued — so after even one accepted `log` call,
`stop()` blocks forever on `join()` under every interleaving of further
producer/consumer steps, instead of returning after the queue drains. -/
theorem C1_stop_no_sentinel_never_drains :
    (∀ st : LoggerState,
        (Logger.stop_phase1 st).logging = false
        ∧ (Logger.stop_phase1 st).queue = st.queue
        ∧ (Logger.stop_phase1 st).unfinished = st.unfinished)
    ∧ (∀ st : LoggerState, (Logger.stop st).isSome ↔ st.unfinished = 0)
    ∧ (∀ ops : List LoggerOp,
        Logger.stop (runLogger (Logger.log registeredDefaultLogger LogLevel.INFO "boot") ops)
          = none) := by
  refine ⟨fun st => ⟨rfl, rfl, rfl⟩, fun st => ?_, fun ops => ?_⟩
  · unfold Logger.stop
    split
    · next h => simpa using h
    · next h => simpa using h
  · have h := runLogger_unfinished_le (Logger.log registeredDefaultLogger LogLevel.INFO "boot") ops
    have h1 : (Logger.log registeredDefaultLogger LogLevel.INFO "boot").unfinished = 1 := rfl
    unfold Logger.stop
    rw [if_neg]
    simp only [Logger.stop_phase1]
    omega

/-- Claim C2: a message whose severity is not the STOP sentinel reaches the
logger's file-gateway queue (decorated) iff the threshold is not QUIET and
the message's rank is at least the threshold's rank; otherwise the gateway
queue stays empty. -/
theorem C2_severity_acceptance (t s : LogLevel) (name file msg ts : String)
    (hs : s ≠ LogLevel.SIGSTOP) :
    some (Logger.apply_decorations ts name s msg)
        ∈ processQueue ts name
            (Logger.log { LoggerState.init name file with level := t } s msg).queue []
      ↔ (t ≠ LogLevel.QUIET ∧ s.value ≥ t.value) := by
  by_cases hqt : t = LogLevel.QUIET
  · subst hqt
    simp [Logger.log, LoggerState.init, processQueue]
  · by_cases hv : s.value ≥ t.value
    · simp [Logger.log, LoggerState.init, hqt, hs, hv, Logger.maybe_create,
        Logger.create_task, processQueue]
    · simp [Logger.log, LoggerState.init, hqt, hs, hv, Logger.maybe_create,
        Logger.create_task, processQueue]

/-- Witness for C2 at threshold DEBUG and severity INFO. -/
theorem C2_witness :
    LogLevel.INFO ≠ LogLevel.SIGSTOP ∧
    some (Logger.apply_decorations "01-01_00:00:00" "n" LogLevel.INFO "m")
      ∈ processQueue "01-01_00:00:00" "n"
          (Logger.log { LoggerState.init "n" "f" with level := LogLevel.DEBUG }
            LogLevel.INFO "m").queue [] :=
  ⟨by decide,
   (C2_severity_acceptance LogLevel.DEBUG LogLevel.INFO "n" "f" "m" "01-01_00:00:00"
      (by decide)).mpr (by decide)⟩

/-- Counterexample to claim C6: with threshold QUIET, `Logger.log` drops the
STOP sentinel instead of enqueuing it (the QUIET check precedes the SIGSTOP
check, lines 306-309), so the sentinel is level-filtered after all. -/
theorem C6_counterexample :
    ¬ (none ∈ (Logger.log { LoggerState.init "default" "log.txt" with level := LogLevel.QUIET }
        LogLevel.SIGSTOP "x").queue) := by
  simp [Logger.log, LoggerState.init]

/-- Claim C6 as amended: for every threshold other than QUIET, the STOP
sentinel is recognized structurally (no rank comparison), enqueued
unformatted as `None`, and the consumer re-emits it to the file gateway,
where it acts as the gateway's own drain signal (the stream loop stops). -/
theorem C6_stop_sentinel_routing (t : LogLevel) (name file msg ts : String)
    (ht : t ≠ LogLevel.QUIET) :
    (Logger.log { LoggerState.init name file with level := t } LogLevel.SIGSTOP msg).queue = [none]
    ∧ processQueue ts name [none] [] = [none]
    ∧ (∀ more : List (Option String), streamProcess (none :: more) [] = []) := by
  refine ⟨?_, rfl, fun more => rfl⟩
  simp [Logger.log, LoggerState.init, ht]

/-- Witness for C6 at threshold DEBUG (whose rank would reject SIGSTOP if it
were compared). -/
theorem C6_witness :
    LogLevel.DEBUG ≠ LogLevel.QUIET ∧
    (Logger.log { LoggerState.init "default" "log.txt" with level := LogLevel.DEBUG }
        LogLevel.SIGSTOP "m").queue = [none] :=
  ⟨by decide,
   (C6_stop_sentinel_routing LogLevel.DEBUG "default" "log.txt" "m" "01-01_00:00:00"
      (by decide)).1⟩

/-- Counterexample to claim C7: when the first `set_level` call passes the
unset sentinel NOTSET, the threshold stays unset and the second call wins,
so it is not true that for any two consecutive calls the first value wins. -/
theorem C7_counterexample :
    ¬ ((Logger.set_level (Logger.set_level (LoggerState.init "default" "log.txt")
          LogLevel.NOTSET) LogLevel.INFO).level = LogLevel.NOTSET) := by
  simp [Logger.set_level, LoggerState.init]

/-- Claim C7 as amended: `set_level` assigns while the threshold is unset
and is a no-op afterwards; for two consecutive calls the first value wins
provided the first value is not the NOTSET sentinel itself. -/
theorem C7_sticky_first_write (st : LoggerState) (a b : LogLevel)
    (ha : a ≠ LogLevel.NOTSET) :
    (st.level = LogLevel.NOTSET → (Logger.set_level st a).level = a)
    ∧ (st.level ≠ LogLevel.NOTSET → Logger.set_level st b = st)
    ∧ (st.level = LogLevel.NOTSET → (Logger.set_level (Logger.set_level st a) b).level = a) := by
  refine ⟨fun h => ?_, fun h => ?_, fun h => ?_⟩
  · simp [Logger.set_level, h]
  · simp [Logger.set_level, h]
  · simp [Logger.set_level, h, ha]

/-- Witness for C7: first write INFO, second write ERROR; INFO sticks. -/
theorem C7_witness :
    LogLevel.INFO ≠ LogLevel.NOTSET ∧
    (Logger.set_level (Logger.set_level (LoggerState.init "n" "f") LogLevel.INFO)
        LogLevel.ERROR).level = LogLevel.INFO :=
  ⟨by decide,
   (C7_sticky_first_write (LoggerState.init "n" "f") LogLevel.INFO LogLevel.ERROR
      (by decide)).2.2 rfl⟩

/-- Claim C8: the rotation check fires exactly when the configured policy is
exceeded — never for a fresh (NONE-policy) gateway and never while the
policy is NONE; for a SIZE policy when the supplied segment size is at least
the configured byte threshold; for a TIME policy when the seconds elapsed
since the segment start strictly exceed the configured threshold; for a
TIME_SIZE (SIZE_AND_TIME) policy when either condition holds.  The last
three conjuncts tie the gateway states used here to `set_file_rotation`
applied to a fresh gateway. -/
theorem C8_rotation_policy (floc : String) (start t sz a b : Int) :
    (FileGateway.rotate_if_needed (FileGateway.init floc start) (some t) (some sz) = false)
    ∧ (∀ g : FileGateway, g.rot_type = RotType.NONE →
        FileGateway.rotate_if_needed g (some t) (some sz) = false)
    ∧ (FileGateway.rotate_if_needed ⟨floc, start, RotType.SIZE, RotAmt.single a⟩
          (some t) (some sz) = true ↔ sz ≥ a)
    ∧ (FileGateway.rotate_if_needed ⟨floc, start, RotType.TIME, RotAmt.single a⟩
          (some t) (some sz) = true ↔ t - start > a)
    ∧ (FileGateway.rotate_if_needed ⟨floc, start, RotType.TIME_SIZE, RotAmt.pair a b⟩
          (some t) (some sz) = true ↔ (t - start > a ∨ sz ≥ b))
    ∧ (∀ amt av, convert_str_to_size amt = some av →
        FileGateway.set_file_rotation (FileGateway.init floc start) RotType.SIZE amt
          = some ⟨floc, start, RotType.SIZE, RotAmt.single av⟩)
    ∧ (∀ amt av, convert_str_to_timestamp amt = some av →
        FileGateway.set_file_rotation (FileGateway.init floc start) RotType.TIME amt
          = some ⟨floc, start, RotType.TIME, RotAmt.single av⟩)
    ∧ (∀ amt tpart spart av bv, splitStr '|' amt = [tpart, spart] →
        convert_str_to_timestamp tpart = some av → convert_str_to_size spart = some bv →
        FileGateway.set_file_rotation (FileGateway.init floc start) RotType.TIME_SIZE amt
          = some ⟨floc, start, RotType.TIME_SIZE, RotAmt.pair av bv⟩) := by
  refine ⟨rfl, fun g hg => ?_, ?_, ?_, ?_, fun amt av h => ?_, fun amt av h => ?_,
    fun amt tpart spart av bv hsplit ht hs => ?_⟩
  · obtain ⟨fl, ss, rt, ra⟩ := g
    cases rt
    · rfl
    · exact RotType.noConfusion hg
    · exact RotType.noConfusion hg
    · exact RotType.noConfusion hg
  · show decide (sz ≥ a) = true ↔ sz ≥ a
    exact decide_eq_true_iff
  · show decide (t - start > a) = true ↔ t - start > a
    exact decide_eq_true_iff
  · show decide (t - start > a ∨ sz ≥ b) = true ↔ (t - start > a ∨ sz ≥ b)
    exact decide_eq_true_iff
  · have e1 : FileGateway.set_file_rotation (FileGateway.init floc start) RotType.SIZE amt
        = (convert_str_to_size amt).map
            (fun x => (⟨floc, start, RotType.SIZE, RotAmt.single x⟩ : FileGateway)) := rfl
    rw [e1, h]
    rfl
  · have e1 : FileGateway.set_file_rotation (FileGateway.init floc start) RotType.TIME amt
        = (convert_str_to_timestamp amt).map
            (fun x => (⟨floc, start, RotType.TIME, RotAmt.single x⟩ : FileGateway)) := rfl
    rw [e1, h]
    rfl
  · have e1 : FileGateway.set_file_rotation (FileGateway.init floc start) RotType.TIME_SIZE amt
        = (match splitStr '|' amt with
           | [time_str, size_str] =>
             match convert_str_to_timestamp time_str, convert_str_to_size size_str with
             | some ta, some sa =>
                 some (⟨floc, start, RotType.TIME_SIZE, RotAmt.pair ta sa⟩ : FileGateway)
             | _, _ => none
           | _ => none) := rfl
    rw [e1, hsplit]
    show (match convert_str_to_timestamp tpart, convert_str_to_size spart with
          | some ta, some sa =>
              some (⟨floc, start, RotType.TIME_SIZE, RotAmt.pair ta sa⟩ : FileGateway)
          | _, _ => none) = _
    rw [ht, hs]

/-- Witness for C8: a 10-byte SIZE policy parsed from the compound string,
checked at segment size 12; and a TIME_SIZE policy parse. -/
theorem C8_witness :
    convert_str_to_size "10 b" = some 10 ∧
    FileGateway.set_file_rotation (FileGateway.init "./logs/log.txt" 100) RotType.SIZE "10 b"
      = some ⟨"./logs/log.txt", 100, RotType.SIZE, RotAmt.single 10⟩ ∧
    FileGateway.rotate_if_needed ⟨"./logs/log.txt", 100, RotType.SIZE, RotAmt.single 10⟩
      (some 101) (some 12) = true ∧
    FileGateway.set_file_rotation (FileGateway.init "./logs/log.txt" 100) RotType.TIME_SIZE "1 s|10 b"
      = some ⟨"./logs/log.txt", 100, RotType.TIME_SIZE, RotAmt.pair 1 10⟩ :=
  ⟨rfl,
   (C8_rotation_policy "./logs/log.txt" 100 101 12 10 0).2.2.2.2.2.1 "10 b" 10 rfl,
   ((C8_rotation_policy "./logs/log.txt" 100 101 12 10 0).2.2.1).mpr (by norm_num),
   (C8_rotation_policy "./logs/log.txt" 100 101 12 10 0).2.2.2.2.2.2.2 "1 s|10 b" "1 s" "10 b" 1 10
     rfl rfl rfl⟩

theorem find?_append_of_none {α : Type} (p : α → Bool) (l1 l2 : List α)
    (h : l1.find? p = none) : (l1 ++ l2).find? p = l2.find? p := by
  induction l1 with
  | nil => rfl
  | cons a t ih =>
    by_cases hpa : p a
    · rw [List.find?_cons_of_pos _ hpa] at h
      exact absurd h (by simp)
    · rw [List.cons_append, List.find?_cons_of_neg _ hpa]
      rw [List.find?_cons_of_neg _ hpa] at h
      exact ih h

theorem createLogger_of_found (st : ComposerState) (args : CallArgs) (e : Entry)
    (h : st.entries.find? (fun x => decide (x.name = registryName args)) = some e) :
    createLogger st args = (e.loggerId, st) := by
  unfold createLogger
  rw [h]

theorem createLogger_of_not_found (st : ComposerState) (args : CallArgs)
    (h : st.entries.find? (fun x => decide (x.name = registryName args)) = none) :
    createLogger st args
      = (st.nextLoggerId,
         { st with
            entries := st.entries ++ [newEntry st args],
            nextLoggerId := st.nextLoggerId + 1,
            nextGatewayId := (resolveGateway st (registryFile args)).2 }) := by
  unfold createLogger
  rw [h]

theorem resolveGateway_fst_some (st : ComposerState) (f : String) (g : Nat)
    (h : get_gateway_if_exists st f = some g) : (resolveGateway st f).1 = g := by
  unfold resolveGateway
  rw [h]

theorem gateway_exists_of_some (st : ComposerState) (f : String) (g : Nat)
    (h : get_gateway_if_exists st f = some g) :
    ∃ e0, e0 ∈ st.entries ∧ e0.file_location = f ∧ e0.gatewayId = g := by
  unfold get_gateway_if_exists at h
  cases hf : st.entries.find? (fun e => decide (e.file_location = f)) with
  | none => rw [hf] at h; simp at h
  | some e0 =>
    rw [hf] at h
    simp only [Option.map_some', Option.some.injEq] at h
    have hp := List.find?_some hf
    exact ⟨e0, List.mem_of_find?_eq_some hf, of_decide_eq_true hp, h⟩

theorem gateway_exists_of_none (st : ComposerState) (f : String)
    (h : get_gateway_if_exists st f = none) :
    ∀ e ∈ st.entries, e.file_location ≠ f := by
  unfold get_gateway_if_exists at h
  cases hf : st.entries.find? (fun e => decide (e.file_location = f)) with
  | none =>
    intro e he
    have hne := List.find?_eq_none.1 hf e he
    simpa using hne
  | some e0 => rw [hf] at h; simp at h

theorem setLevelEntry_gatewayId (n : String) (lvl : LogLevel) (e : Entry) :
    (setLevelEntry n lvl e).gatewayId = e.gatewayId := by
  unfold setLevelEntry; split <;> rfl

theorem setLevelEntry_file (n : String) (lvl : LogLevel) (e : Entry) :
    (setLevelEntry n lvl e).file_location = e.file_location := by
  unfold setLevelEntry; split <;> rfl

theorem set_level_noop (st : LoggerState) (lvl : LogLevel)
    (h : st.level ≠ LogLevel.NOTSET) : Logger.set_level st lvl = st := by
  simp [Logger.set_level, h]

theorem gateway_unique_step (st : ComposerState) (op : ComposerOp)
    (h : ∀ e1 ∈ st.entries, ∀ e2 ∈ st.entries,
        e1.file_location = e2.file_location → e1.gatewayId = e2.gatewayId) :
    ∀ e1 ∈ (composerStep st op).entries, ∀ e2 ∈ (composerStep st op).entries,
      e1.file_location = e2.file_location → e1.gatewayId = e2.gatewayId := by
  cases op with
  | create args =>
    intro e1 h1 e2 h2 hfl
    simp only [composerStep] at h1 h2
    cases hfind : st.entries.find? (fun x => decide (x.name = registryName args)) with
    | some e =>
      rw [createLogger_of_found st args e hfind] at h1 h2
      exact h e1 h1 e2 h2 hfl
    | none =>
      rw [createLogger_of_not_found st args hfind] at h1 h2
      simp only [List.mem_append, List.mem_singleton] at h1 h2
      rcases h1 with h1 | h1 <;> rcases h2 with h2 | h2
      · exact h e1 h1 e2 h2 hfl
      · subst h2
        have hf1 : e1.file_location = registryFile args := hfl
        cases hgw : get_gateway_if_exists st (registryFile args) with
        | none => exact absurd hf1 (gateway_exists_of_none st _ hgw e1 h1)
        | some g =>
          obtain ⟨e0, he0, hf0, hg0⟩ := gateway_exists_of_some st _ g hgw
          have h10 : e1.gatewayId = e0.gatewayId :=
            h e1 h1 e0 he0 (by rw [hf1, hf0])
          rw [h10, hg0]
          exact (resolveGateway_fst_some st _ g hgw).symm
      · subst h1
        have hf2 : e2.file_location = registryFile args := hfl.symm
        cases hgw : get_gateway_if_exists st (registryFile args) with
        | none => exact absurd hf2 (gateway_exists_of_none st _ hgw e2 h2)
        | some g =>
          obtain ⟨e0, he0, hf0, hg0⟩ := gateway_exists_of_some st _ g hgw
          have h20 : e2.gatewayId = e0.gatewayId :=
            h e2 h2 e0 he0 (by rw [hf2, hf0])
          show (newEntry st args).gatewayId = e2.gatewayId
          rw [h20, hg0]
          exact resolveGateway_fst_some st _ g hgw
      · subst h1; subst h2; rfl
  | remove n =>
    intro e1 h1 e2 h2 hfl
    simp only [composerStep] at h1 h2
    rw [List.mem_filter] at h1 h2
    exact h e1 h1.1 e2 h2.1 hfl
  | setLevel n lvl =>
    intro e1 h1 e2 h2 hfl
    simp only [composerStep] at h1 h2
    rw [List.mem_map] at h1 h2
    obtain ⟨a1, ha1, rfl⟩ := h1
    obtain ⟨a2, ha2, rfl⟩ := h2
    rw [setLevelEntry_gatewayId, setLevelEntry_gatewayId]
    rw [setLevelEntry_file, setLevelEntry_file] at hfl
    exact h a1 ha1 a2 ha2 hfl
  | setLevelIfNotSet =>
    intro e1 h1 e2 h2 hfl
    simp only [composerStep] at h1 h2
    rw [List.mem_map] at h1 h2
    obtain ⟨a1, ha1, rfl⟩ := h1
    obtain ⟨a2, ha2, rfl⟩ := h2
    exact h a1 ha1 a2 ha2 hfl
  | stopAll =>
    intro e1 h1
    simp only [composerStep, stop_everything] at h1
    exact absurd h1 (List.not_mem_nil e1)

theorem gateway_unique_run (st : ComposerState) (ops : List ComposerOp)
    (h : ∀ e1 ∈ st.entries, ∀ e2 ∈ st.entries,
        e1.file_location = e2.file_location → e1.gatewayId = e2.gatewayId) :
    ∀ e1 ∈ (runComposer st ops).entries, ∀ e2 ∈ (runComposer st ops).entries,
      e1.file_location = e2.file_location → e1.gatewayId = e2.gatewayId := by
  induction ops generalizing st with
  | nil => exact h
  | cons op rest ih => exact ih (composerStep st op) (gateway_unique_step st op h)

theorem levels_debug_step (st : ComposerState) (op : ComposerOp)
    (hlv : st.level = LogLevel.DEBUG)
    (h : ∀ e ∈ st.entries, e.logger.level = LogLevel.DEBUG) :
    (composerStep st op).level = LogLevel.DEBUG
    ∧ ∀ e ∈ (composerStep st op).entries, e.logger.level = LogLevel.DEBUG := by
  cases op with
  | create args =>
    cases hfind : st.entries.find? (fun x => decide (x.name = registryName args)) with
    | some e0 =>
      constructor
      · simp only [composerStep]
        rw [createLogger_of_found st args e0 hfind]
        exact hlv
      · intro e he
        simp only [composerStep] at he
        rw [createLogger_of_found st args e0 hfind] at he
        exact h e he
    | none =>
      constructor
      · simp only [composerStep]
        rw [createLogger_of_not_found st args hfind]
        exact hlv
      · intro e he
        simp only [composerStep] at he
        rw [createLogger_of_not_found st args hfind] at he
        simp only [List.mem_append, List.mem_singleton] at he
        rcases he with he | he
        · exact h e he
        · subst he
          exact hlv
  | remove n =>
    refine ⟨hlv, fun e he => ?_⟩
    simp only [composerStep] at he
    rw [List.mem_filter] at he
    exact h e he.1
  | setLevel n lvl =>
    refine ⟨hlv, fun e he => ?_⟩
    simp only [composerStep] at he
    rw [List.mem_map] at he
    obtain ⟨a, ha, rfl⟩ := he
    have hda := h a ha
    unfold setLevelEntry
    split
    · show (Logger.set_level a.logger lvl).level = LogLevel.DEBUG
      rw [set_level_noop a.logger lvl (fun hc => by rw [hda] at hc; exact LogLevel.noConfusion hc)]
      exact hda
    · exact hda
  | setLevelIfNotSet =>
    refine ⟨hlv, fun e he => ?_⟩
    simp only [composerStep] at he
    rw [List.mem_map] at he
    obtain ⟨a, ha, rfl⟩ := he
    have hda := h a ha
    show (Logger.set_level a.logger st.level).level = LogLevel.DEBUG
    rw [set_level_noop a.logger st.level (fun hc => by rw [hda] at hc; exact LogLevel.noConfusion hc)]
    exact hda
  | stopAll =>
    refine ⟨hlv, fun e he => ?_⟩
    simp only [composerStep, stop_everything] at he
    exact absurd he (List.not_mem_nil e)

theorem levels_debug_run (st : ComposerState) (ops : List ComposerOp)
    (hlv : st.level = LogLevel.DEBUG)
    (h : ∀ e ∈ st.entries, e.logger.level = LogLevel.DEBUG) :
    ∀ e ∈ (runComposer st ops).entries, e.logger.level = LogLevel.DEBUG := by
  induction ops generalizing st with
  | nil => exact h
  | cons op rest ih =>
    obtain ⟨hlv2, h2⟩ := levels_debug_step st op hlv h
    exact ih (composerStep st op) hlv2 h2

theorem stop_calls_count_gateway (l : List Entry) (g : Nat) :
    (l.flatMap (fun e =>
        [StopCall.logger_stop e.loggerId, StopCall.gateway_stop e.gatewayId])).count
        (StopCall.gateway_stop g)
      = (l.filter (fun e => decide (e.gatewayId = g))).length := by
  induction l with
  | nil => rfl
  | cons e t ih =>
    simp only [List.flatMap_cons, List.count_append, List.filter_cons, ih]
    by_cases hg : e.gatewayId = g
    · simp [hg, List.count_cons, Nat.add_comm]
    · simp [hg, List.count_cons]

theorem stop_calls_count_logger (l : List Entry) (i : Nat) :
    (l.flatMap (fun e =>
        [StopCall.logger_stop e.loggerId, StopCall.gateway_stop e.gatewayId])).count
        (StopCall.logger_stop i)
      = (l.filter (fun e => decide (e.loggerId = i))).length := by
  induction l with
  | nil => rfl
  | cons e t ih =>
    simp only [List.flatMap_cons, List.count_append, List.filter_cons, ih]
    by_cases hg : e.loggerId = i
    · simp [hg, List.count_cons, Nat.add_comm]
    · simp [hg, List.count_cons]

theorem stop_everything_of_empty (st : ComposerState) (h : st.entries = []) :
    stop_everything st = st := by
  obtain ⟨lvl, es, nl, ng⟩ := st
  change es = [] at h
  subst h
  rfl

/-- Claim C3: at every reachable registry state, gateway ids are unique per
destination path — two registered entries with the same file location carry
the same gateway.  In particular a get-or-create naming an already-used path
ends with its new entry sharing the existing entry's gateway rather than a
fresh one. -/
theorem C3_gateway_unique_per_path (ops : List ComposerOp) (e1 e2 : Entry)
    (h1 : e1 ∈ (runComposer ComposerMeta.autoComposer ops).entries)
    (h2 : e2 ∈ (runComposer ComposerMeta.autoComposer ops).entries)
    (hfl : e1.file_location = e2.file_location) :
    e1.gatewayId = e2.gatewayId :=
  gateway_unique_run ComposerMeta.autoComposer ops
    (fun x hx => absurd hx (List.not_mem_nil x)) e1 h1 e2 h2 hfl

/-- Witness for C3: loggers "a" and "b" both registered on file "f.txt"
share gateway 0. -/
theorem C3_witness :
    (⟨"a", ⟨"a", LogLevel.DEBUG, [], 0, true, false, "f.txt"⟩, 0, "./logs/f.txt", 0⟩ : Entry)
        ∈ (runComposer ComposerMeta.autoComposer
            [ComposerOp.create ⟨none, none, some "a", some "f.txt"⟩,
             ComposerOp.create ⟨none, none, some "b", some "f.txt"⟩]).entries
    ∧ (⟨"b", ⟨"b", LogLevel.DEBUG, [], 0, true, false, "f.txt"⟩, 1, "./logs/f.txt", 0⟩ : Entry)
        ∈ (runComposer ComposerMeta.autoComposer
            [ComposerOp.create ⟨none, none, some "a", some "f.txt"⟩,
             ComposerOp.create ⟨none, none, some "b", some "f.txt"⟩]).entries
    ∧ (⟨"a", ⟨"a", LogLevel.DEBUG, [], 0, true, false, "f.txt"⟩, 0, "./logs/f.txt", 0⟩ : Entry).gatewayId
        = (⟨"b", ⟨"b", LogLevel.DEBUG, [], 0, true, false, "f.txt"⟩, 1, "./logs/f.txt", 0⟩ : Entry).gatewayId := by
  have he : (runComposer ComposerMeta.autoComposer
      [ComposerOp.create ⟨none, none, some "a", some "f.txt"⟩,
       ComposerOp.create ⟨none, none, some "b", some "f.txt"⟩]).entries
      = [⟨"a", ⟨"a", LogLevel.DEBUG, [], 0, true, false, "f.txt"⟩, 0, "./logs/f.txt", 0⟩,
         ⟨"b", ⟨"b", LogLevel.DEBUG, [], 0, true, false, "f.txt"⟩, 1, "./logs/f.txt", 0⟩] := rfl
  refine ⟨?_, ?_, ?_⟩
  · rw [he]; exact List.mem_cons_self _ _
  · rw [he]; exact List.mem_cons_of_mem _ (List.mem_cons_self _ _)
  · exact C3_gateway_unique_per_path
      [ComposerOp.create ⟨none, none, some "a", some "f.txt"⟩,
       ComposerOp.create ⟨none, none, some "b", some "f.txt"⟩] _ _
      (by rw [he]; exact List.mem_cons_self _ _)
      (by rw [he]; exact List.mem_cons_of_mem _ (List.mem_cons_self _ _)) rfl

/-- Claim C4: get-or-create is idempotent in the (keyword) name — if the
name is already registered the registered logger's id is returned with the
state untouched (the new destination is ignored), and a second call with the
same name returns exactly what the first returned. -/
theorem C4_get_or_create_idempotent (st : ComposerState) (n f1 f2 : String) :
    (∀ e : Entry,
        st.entries.find? (fun x => decide (x.name = n)) = some e →
        createLogger st ⟨none, none, some n, some f1⟩ = (e.loggerId, st))
    ∧ createLogger (createLogger st ⟨none, none, some n, some f1⟩).2
          ⟨none, none, some n, some f2⟩
        = createLogger st ⟨none, none, some n, some f1⟩ := by
  constructor
  · intro e he
    exact createLogger_of_found st _ e he
  · cases hfind : st.entries.find? (fun x => decide (x.name = n)) with
    | some e =>
      rw [createLogger_of_found st ⟨none, none, some n, some f1⟩ e hfind]
      exact createLogger_of_found st _ e hfind
    | none =>
      have h1 := createLogger_of_not_found st (⟨none, none, some n, some f1⟩ : CallArgs) hfind
      rw [h1]
      have hfindn : st.entries.find?
          (fun x => decide (x.name = registryName (⟨none, none, some n, some f2⟩ : CallArgs)))
          = none := hfind
      have hfound : (st.nextLoggerId,
          ({ st with
             entries := st.entries ++ [newEntry st ⟨none, none, some n, some f1⟩],
             nextLoggerId := st.nextLoggerId + 1,
             nextGatewayId := (resolveGateway st
               (registryFile (⟨none, none, some n, some f1⟩ : CallArgs))).2 }
           : ComposerState)).2.entries.find?
          (fun x => decide (x.name = registryName (⟨none, none, some n, some f2⟩ : CallArgs)))
          = some (newEntry st ⟨none, none, some n, some f1⟩) := by
        show (st.entries ++ [newEntry st ⟨none, none, some n, some f1⟩]).find? _ = _
        rw [find?_append_of_none _ _ _ hfindn]
        exact List.find?_cons_of_pos _ (decide_eq_true rfl)
      rw [createLogger_of_found _ _ _ hfound]
      rfl

/-- Witness for C4: a registry that already holds logger "x" returns it and
ignores the new destination. -/
theorem C4_witness :
    ([(⟨"x", ⟨"x", LogLevel.DEBUG, [], 0, true, false, "f.txt"⟩, 5, "./logs/f.txt", 3⟩ : Entry)].find?
        (fun x => decide (x.name = "x"))
      = some (⟨"x", ⟨"x", LogLevel.DEBUG, [], 0, true, false, "f.txt"⟩, 5, "./logs/f.txt", 3⟩ : Entry))
    ∧ createLogger
        ⟨LogLevel.DEBUG,
         [⟨"x", ⟨"x", LogLevel.DEBUG, [], 0, true, false, "f.txt"⟩, 5, "./logs/f.txt", 3⟩], 7, 4⟩
        ⟨none, none, some "x", some "other.txt"⟩
      = (5, ⟨LogLevel.DEBUG,
         [⟨"x", ⟨"x", LogLevel.DEBUG, [], 0, true, false, "f.txt"⟩, 5, "./logs/f.txt", 3⟩], 7, 4⟩) :=
  ⟨rfl,
   (C4_get_or_create_idempotent
      ⟨LogLevel.DEBUG,
       [⟨"x", ⟨"x", LogLevel.DEBUG, [], 0, true, false, "f.txt"⟩, 5, "./logs/f.txt", 3⟩], 7, 4⟩
      "x" "other.txt" "other.txt").1
      ⟨"x", ⟨"x", LogLevel.DEBUG, [], 0, true, false, "f.txt"⟩, 5, "./logs/f.txt", 3⟩ rfl⟩

/-- Claim C9: with the auto-created composer (default level DEBUG), every
registered logger's threshold is DEBUG at every reachable state — in
particular never the unset NOTSET sentinel — so every explicit `set_level`
call on a registered logger is a no-op. -/
theorem C9_auto_composer_debug_level (ops : List ComposerOp) (e : Entry)
    (he : e ∈ (runComposer ComposerMeta.autoComposer ops).entries) :
    e.logger.level = LogLevel.DEBUG
    ∧ e.logger.level ≠ LogLevel.NOTSET
    ∧ ∀ lvl : LogLevel, Logger.set_level e.logger lvl = e.logger := by
  have hD : e.logger.level = LogLevel.DEBUG :=
    levels_debug_run ComposerMeta.autoComposer ops rfl
      (fun x hx => absurd hx (List.not_mem_nil x)) e he
  refine ⟨hD, fun hc => ?_, fun lvl => ?_⟩
  · rw [hD] at hc
    exact LogLevel.noConfusion hc
  · exact set_level_noop e.logger lvl (fun hc => by
      rw [hD] at hc
      exact LogLevel.noConfusion hc)

/-- Witness for C9: the single registered logger "a" carries level DEBUG. -/
theorem C9_witness :
    (⟨"a", ⟨"a", LogLevel.DEBUG, [], 0, true, false, "f.txt"⟩, 0, "./logs/f.txt", 0⟩ : Entry)
        ∈ (runComposer ComposerMeta.autoComposer
            [ComposerOp.create ⟨none, none, some "a", some "f.txt"⟩]).entries
    ∧ Logger.set_level
        (⟨"a", ⟨"a", LogLevel.DEBUG, [], 0, true, false, "f.txt"⟩, 0, "./logs/f.txt", 0⟩ : Entry).logger
        LogLevel.ERROR
      = (⟨"a", ⟨"a", LogLevel.DEBUG, [], 0, true, false, "f.txt"⟩, 0, "./logs/f.txt", 0⟩ : Entry).logger := by
  have he : (runComposer ComposerMeta.autoComposer
      [ComposerOp.create ⟨none, none, some "a", some "f.txt"⟩]).entries
      = [⟨"a", ⟨"a", LogLevel.DEBUG, [], 0, true, false, "f.txt"⟩, 0, "./logs/f.txt", 0⟩] := rfl
  have hm : (⟨"a", ⟨"a", LogLevel.DEBUG, [], 0, true, false, "f.txt"⟩, 0, "./logs/f.txt", 0⟩ : Entry)
      ∈ (runComposer ComposerMeta.autoComposer
          [ComposerOp.create ⟨none, none, some "a", some "f.txt"⟩]).entries := by
    rw [he]
    exact List.mem_cons_self _ _
  exact ⟨hm, (C9_auto_composer_debug_level
    [ComposerOp.create ⟨none, none, some "a", some "f.txt"⟩] _ hm).2.2 LogLevel.ERROR⟩

/-- Claim C10: the registry key is read from keyword arguments only, so a
purely positional construction is registered under the defaults "default" /
"log.txt" whatever the positional name and file are (the instance itself
still carries the positional values), and a second positional construction
with different values returns the first logger with the state unchanged. -/
theorem C10_positional_keying (n1 f1 n2 f2 : String) :
    ((createLogger ComposerMeta.autoComposer ⟨some n1, some f1, none, none⟩).2.entries
        = [⟨"default", ⟨n1, LogLevel.DEBUG, [], 0, true, false, f1⟩, 0, "./logs/log.txt", 0⟩])
    ∧ createLogger (createLogger ComposerMeta.autoComposer ⟨some n1, some f1, none, none⟩).2
          ⟨some n2, some f2, none, none⟩
        = createLogger ComposerMeta.autoComposer ⟨some n1, some f1, none, none⟩ :=
  ⟨rfl, rfl⟩

/-- Counterexample to claim C5: with loggers "a" and "b" sharing one
gateway, `stop_everything` issues the stop calls interleaved per entry and
stops the shared gateway twice, not once after all loggers. -/
theorem C5_counterexample :
    stop_everything_calls (runComposer ComposerMeta.autoComposer
        [ComposerOp.create ⟨none, none, some "a", some "f.txt"⟩,
         ComposerOp.create ⟨none, none, some "b", some "f.txt"⟩])
      = [StopCall.logger_stop 0, StopCall.gateway_stop 0,
         StopCall.logger_stop 1, StopCall.gateway_stop 0]
    ∧ (stop_everything_calls (runComposer ComposerMeta.autoComposer
        [ComposerOp.create ⟨none, none, some "a", some "f.txt"⟩,
         ComposerOp.create ⟨none, none, some "b", some "f.txt"⟩])).count
        (StopCall.gateway_stop 0) = 2 :=
  ⟨rfl, rfl⟩

/-- Claim C5 as amended: `stop_everything` issues one logger-stop and one
gateway-stop per registry entry in order (a gateway shared by k loggers is
stopped k times) and then clears the registry; afterwards — and whenever no
loggers are registered — a further call issues no stop calls and leaves the
state unchanged, raising no error. -/
theorem C5_stop_everything_behaviour (ops : List ComposerOp) :
    ((stop_everything (runComposer ComposerMeta.autoComposer ops)).entries = [])
    ∧ stop_everything_calls (stop_everything (runComposer ComposerMeta.autoComposer ops)) = []
    ∧ stop_everything (stop_everything (runComposer ComposerMeta.autoComposer ops))
        = stop_everything (runComposer ComposerMeta.autoComposer ops)
    ∧ ((runComposer ComposerMeta.autoComposer ops).entries = [] →
        stop_everything (runComposer ComposerMeta.autoComposer ops)
          = runComposer ComposerMeta.autoComposer ops)
    ∧ (∀ g : Nat,
        (stop_everything_calls (runComposer ComposerMeta.autoComposer ops)).count
            (StopCall.gateway_stop g)
          = ((runComposer ComposerMeta.autoComposer ops).entries.filter
              (fun e => decide (e.gatewayId = g))).length)
    ∧ (∀ i : Nat,
        (stop_everything_calls (runComposer ComposerMeta.autoComposer ops)).count
            (StopCall.logger_stop i)
          = ((runComposer ComposerMeta.autoComposer ops).entries.filter
              (fun e => decide (e.loggerId = i))).length) :=
  ⟨rfl, rfl, rfl,
   fun h => stop_everything_of_empty _ h,
   fun g => stop_calls_count_gateway _ g,
   fun i => stop_calls_count_logger _ i⟩

/-- Witness for C5: the empty-registry case is a genuine no-op. -/
theorem C5_witness :
    (runComposer ComposerMeta.autoComposer ([] : List ComposerOp)).entries = ([] : List Entry)
    ∧ stop_everything (runComposer ComposerMeta.autoComposer ([] : List ComposerOp))
        = runComposer ComposerMeta.autoComposer ([] : List ComposerOp) :=
  ⟨rfl, (C5_stop_everything_behaviour []).2.2.2.1 rfl⟩
